import Mathlib

/-!
Shallow embedding of `src/workbook.go` (package excelize): the workbook
descriptor data model, the workbook reader cache (`workbookReader`), the
properties accessor (`SetWorkbookProps` / `GetWorkbookProps`), the protection
manager (`ProtectWorkbook` / `UnprotectWorkbook`), the sheet registrar
(`setWorkbook`) and the path resolver (`getWorkbookPath` /
`getWorkbookRelsPath`).

Go pointer mutation of the `File` handle is embedded as explicit state
passing: every operation takes a `File` and returns the updated `File`
together with its Go return values.  A Go `error` result is `Option GoErr`
(`none` = nil).  Go `nil` pointers to records are `Option` values.
-/

/-- One entry of the container relationship table (`xlsxRelationship`); only
the `Type` and `Target` fields are read by this core. -/
structure Relationship where
  relType : String
  target : String
  deriving DecidableEq

/-- `xlsxWorkbookPr`: the workbook properties record.  Go zero values:
`false`, `false`, `""`. -/
structure XlsxWorkbookPr where
  date1904 : Bool
  filterPrivacy : Bool
  codeName : String
  deriving DecidableEq

/-- The record produced by Go `new(xlsxWorkbookPr)`: all fields zero. -/
def newXlsxWorkbookPr : XlsxWorkbookPr := ⟨false, false, ""⟩

/-- `xlsxWorkbookProtection`: lock flags plus hash material.  Spin count is
`Int`, matching the Go `int` field. -/
structure XlsxWorkbookProtection where
  lockStructure : Bool
  lockWindows : Bool
  workbookAlgorithmName : String
  workbookSaltValue : String
  workbookHashValue : String
  workbookSpinCount : Int
  deriving DecidableEq

/-- `xlsxSheet`: one entry of the workbook sheet list. -/
structure XlsxSheet where
  name : String
  sheetID : Int
  id : String
  deriving DecidableEq

/-- `xlsxWorkbook`: the decoded workbook descriptor.  Only the fields this
core touches are modelled (`WorkbookPr`, `WorkbookProtection`,
`Sheets.Sheet`); the opaque alternate-content block and the remaining
carried-through XML fields do not affect any operation here. -/
structure XlsxWorkbook where
  workbookPr : Option XlsxWorkbookPr
  workbookProtection : Option XlsxWorkbookProtection
  sheets : List XlsxSheet
  deriving DecidableEq

/-- The workbook produced by Go `new(xlsxWorkbook)`: all pointer fields nil,
empty sheet list. -/
def emptyWorkbook : XlsxWorkbook := ⟨none, none, []⟩

/-- The Go error values this core can return: `io.EOF`, an XML decode error
(with its message), `ErrUnsupportedHashAlgorithm` (from the hash
collaborator), `ErrUnprotectWorkbook`, `ErrUnprotectWorkbookPassword`. -/
inductive GoErr where
  | ioEOF
  | decodeFail (msg : String)
  | unsupportedHashAlgorithm
  | errUnprotectWorkbook
  | errUnprotectWorkbookPassword
  deriving DecidableEq

/-- Outcome of `Decode` applied to the backing workbook part bytes
(`namespaceStrictToTransitional(f.readXML(wbPath))`), an external
collaborator.  `success wb` is a clean decode; `eof` is `io.EOF` from a
wholly empty part (the target struct is left untouched, hence empty);
`failure partialWb msg` is any other decode error, where `partialWb` is
whatever content the decoder had already filled into the target struct. -/
inductive DecodeOutcome where
  | success (wb : XlsxWorkbook)
  | eof
  | failure (partialWb : XlsxWorkbook) (msg : String)
  deriving DecidableEq

/-- The `File` container handle, restricted to the state this core reads or
writes: the cached workbook (`f.WorkBook`), the `_rels/.rels` relationship
table as exposed by `relsReader` (`none` when that part is absent), and the
fixed decode outcome of the backing workbook part. -/
structure File where
  workBook : Option XlsxWorkbook
  rels : Option (List Relationship)
  workbookDecode : DecodeOutcome
  deriving DecidableEq

/-- Store a workbook into the handle's cache slot: the embedding of mutating
through the `*xlsxWorkbook` pointer returned by `workbookReader`. -/
def storeWorkBook (f : File) (wb : XlsxWorkbook) : File :=
  {f with workBook := some wb}

/-- `workbookReader`: get-or-load of the cached descriptor.  If `f.WorkBook`
is nil, a fresh empty struct is installed and the part is decoded into it;
a decode error other than `io.EOF` returns early, and the final
`return f.WorkBook, err` propagates `err` as it stands (so `io.EOF` is
returned too).  In every branch the (possibly partially) decoded struct has
already been stored in `f.WorkBook`.  The namespace-registration side
channel (`f.xmlAttr`, `addNameSpaces`) is omitted: it affects neither the
descriptor nor any returned value of the operations modelled here. -/
def workbookReader (f : File) : File × XlsxWorkbook × Option GoErr :=
  match f.workBook with
  | some wb => (f, wb, none)
  | none =>
    match f.workbookDecode with
    | DecodeOutcome.success wb => (storeWorkBook f wb, wb, none)
    | DecodeOutcome.eof => (storeWorkBook f emptyWorkbook, emptyWorkbook, some GoErr.ioEOF)
    | DecodeOutcome.failure pwb msg => (storeWorkBook f pwb, pwb, some (GoErr.decodeFail msg))

/-- `WorkbookPropsOptions`: each field an optional (Go pointer) value. -/
structure WorkbookPropsOptions where
  date1904 : Option Bool
  filterPrivacy : Option Bool
  codeName : Option String
  deriving DecidableEq

/-- Go helper `boolPtr`. -/
def boolPtr (b : Bool) : Option Bool := some b

/-- Go helper `stringPtr`. -/
def stringPtr (s : String) : Option String := some s

/-- `SetWorkbookProps`: load the descriptor; create `WorkbookPr` if nil;
return nil if `opts` is nil; otherwise overwrite exactly the fields whose
option is non-nil, in source order. -/
def SetWorkbookProps (f : File) (opts : Option WorkbookPropsOptions) : File × Option GoErr :=
  let (f1, wb, err) := workbookReader f
  match err with
  | some e => (f1, some e)
  | none =>
    let wb1 := match wb.workbookPr with
      | none => {wb with workbookPr := some newXlsxWorkbookPr}
      | some _ => wb
    match opts with
    | none => (storeWorkBook f1 wb1, none)
    | some o =>
      let pr0 := wb1.workbookPr.getD newXlsxWorkbookPr
      let pr1 := match o.date1904 with
        | some v => {pr0 with date1904 := v}
        | none => pr0
      let pr2 := match o.filterPrivacy with
        | some v => {pr1 with filterPrivacy := v}
        | none => pr1
      let pr3 := match o.codeName with
        | some v => {pr2 with codeName := v}
        | none => pr2
      (storeWorkBook f1 {wb1 with workbookPr := some pr3}, none)

/-- `GetWorkbookProps`: load the descriptor; if `WorkbookPr` is non-nil,
populate every option field from it, else leave all options nil. -/
def GetWorkbookProps (f : File) : File × WorkbookPropsOptions × Option GoErr :=
  let (f1, wb, err) := workbookReader f
  match err with
  | some e => (f1, ⟨none, none, none⟩, some e)
  | none =>
    match wb.workbookPr with
    | some pr => (f1, ⟨boolPtr pr.date1904, boolPtr pr.filterPrivacy, stringPtr pr.codeName⟩, none)
    | none => (f1, ⟨none, none, none⟩, none)

/-- `WorkbookProtectionOptions`: plain (non-pointer) Go fields. -/
structure WorkbookProtectionOptions where
  algorithmName : String
  password : String
  lockStructure : Bool
  lockWindows : Bool
  deriving DecidableEq

/-- Modelled from the spec: the algorithm identifiers accepted by the hash
collaborator `genISOPasswdHash` (§6): XOR, MD4, MD5, SHA-1, SHA-256,
SHA-384, SHA-512. -/
def supportedHashAlgorithms : List String :=
  ["XOR", "MD4", "MD5", "SHA-1", "SHA-256", "SHA-384", "SHA-512"]

/-- Modelled from the spec: the fresh random salt the hashing collaborator
generates when no prior salt is supplied.  Randomness is not embeddable, so
the generator is a fixed non-empty value; no claim depends on its
distribution. -/
def freshSaltValue : String := "fresh-salt"

/-- Modelled from the spec: the salted, iterated password-hash derivation of
the hash collaborator, idealized as a deterministic derivation that is
collision-free (injective) in the password for fixed algorithm, salt and
spin count. -/
def deriveHash (password algorithm salt : String) (spinCount : Int) : String :=
  algorithm ++ ":" ++ salt ++ ":" ++ toString spinCount ++ ":" ++ password

/-- Modelled from the spec: `genISOPasswdHash(password, algorithmName,
salt?, spinCount) -> (hash, salt) | UnsupportedAlgorithmError` (§6).  An
unsupported algorithm name is rejected; an empty salt argument makes the
collaborator generate a fresh salt; the hash and the salt actually used are
returned. -/
def genISOPasswdHash (password algorithm salt : String) (spinCount : Int) :
    Except GoErr (String × String) :=
  if supportedHashAlgorithms.contains algorithm then
    let s := if salt = "" then freshSaltValue else salt
    Except.ok (deriveHash password algorithm s spinCount, s)
  else
    Except.error GoErr.unsupportedHashAlgorithm

/-- Modelled from the spec: the module-wide workbook protection spin-count
constant (declared outside `src/`); its exact value is irrelevant to every
claim. -/
def workbookProtectionSpinCount : Int := 100000

/-- `ProtectWorkbook`: load the descriptor; replace `WorkbookProtection`
with a fresh record carrying only the lock flags from `opts` (the source's
preceding `new(xlsxWorkbookProtection)` assignment for a nil record is
immediately overwritten by this replacement and has no observable effect);
then, only for a non-empty password, default the algorithm to SHA-512,
derive the hash with empty prior salt, and on success store algorithm name,
salt, hash and spin count; a hash-collaborator error is returned after the
record was already replaced. -/
def ProtectWorkbook (f : File) (opts : Option WorkbookProtectionOptions) : File × Option GoErr :=
  let (f1, wb, err) := workbookReader f
  match err with
  | some e => (f1, some e)
  | none =>
    let o := opts.getD ⟨"", "", false, false⟩
    let prot : XlsxWorkbookProtection := ⟨o.lockStructure, o.lockWindows, "", "", "", 0⟩
    let wb1 := {wb with workbookProtection := some prot}
    let f2 := storeWorkBook f1 wb1
    if o.password = "" then
      (f2, none)
    else
      let algo := if o.algorithmName = "" then "SHA-512" else o.algorithmName
      match genISOPasswdHash o.password algo "" workbookProtectionSpinCount with
      | Except.error e => (f2, some e)
      | Except.ok (hashValue, saltValue) =>
        let prot1 : XlsxWorkbookProtection :=
          ⟨o.lockStructure, o.lockWindows, algo, saltValue, hashValue, workbookProtectionSpinCount⟩
        (storeWorkBook f2 {wb1 with workbookProtection := some prot1}, none)

/-- `UnprotectWorkbook`: load the descriptor; with a supplied password,
require a protection record (`ErrUnprotectWorkbook` otherwise) and, when
the stored algorithm name is non-empty, recompute the hash with the stored
salt, algorithm and spin count and compare (`ErrUnprotectWorkbookPassword`
on mismatch); in every non-error path clear the record. -/
def UnprotectWorkbook (f : File) (password : List String) : File × Option GoErr :=
  let (f1, wb, err) := workbookReader f
  match err with
  | some e => (f1, some e)
  | none =>
    match password with
    | [] => (storeWorkBook f1 {wb with workbookProtection := none}, none)
    | pw :: _ =>
      match wb.workbookProtection with
      | none => (f1, some GoErr.errUnprotectWorkbook)
      | some prot =>
        if prot.workbookAlgorithmName = "" then
          (storeWorkBook f1 {wb with workbookProtection := none}, none)
        else
          match genISOPasswdHash pw prot.workbookAlgorithmName prot.workbookSaltValue
              prot.workbookSpinCount with
          | Except.error e => (f1, some e)
          | Except.ok (hashValue, _) =>
            if prot.workbookHashValue = hashValue then
              (storeWorkBook f1 {wb with workbookProtection := none}, none)
            else
              (f1, some GoErr.errUnprotectWorkbookPassword)

/-- `setWorkbook`: load the descriptor, discarding the error, and append one
sheet entry with relationship id token `"rId" + strconv.Itoa(rid)`. -/
def setWorkbook (f : File) (name : String) (sheetID rid : Int) : File :=
  let (f1, wb, _) := workbookReader f
  storeWorkBook f1 {wb with sheets := wb.sheets ++ [⟨name, sheetID, "rId" ++ toString rid⟩]}

/-- The `SourceRelationshipOfficeDocument` relationship type constant. -/
def SourceRelationshipOfficeDocument : String :=
  "http://schemas.openxmlformats.org/officeDocument/2006/relationships/officeDocument"

/-- Go `strings.TrimPrefix`: drop `pre` from the front of `s` when it is a
leading substring, else return `s` unchanged. -/
def trimPrefix (s pre : String) : String :=
  if pre.data.isPrefixOf s.data then String.mk (s.data.drop pre.data.length) else s

/-- The scan inside `getWorkbookPath`: first relationship of type
`SourceRelationshipOfficeDocument` wins; its target is returned with a
leading "/" trimmed; "" when no relationship matches. -/
def findOfficeDocTarget : List Relationship → String
  | [] => ""
  | rel :: rest =>
    if rel.relType = SourceRelationshipOfficeDocument then trimPrefix rel.target "/"
    else findOfficeDocTarget rest

/-- `getWorkbookPath`: read `_rels/.rels`; when that part is absent
(`relsReader` yields nil) or no office-document relationship exists, return
"".  The mutex taken around the scan is irrelevant under the embedding's
single-threaded semantics. -/
def getWorkbookPath (f : File) : String :=
  match f.rels with
  | some rels => findOfficeDocTarget rels
  | none => ""

/-- Go `path/filepath.Dir` for slash-separated relative paths without
redundant separators or dot components (the forms the relationship targets
take after the leading-slash trim): everything before the final "/", or "."
when the path has no "/" (including the empty path). -/
def filepathDir (p : String) : String :=
  if p.data.contains '/' then
    String.mk (((p.data.reverse.dropWhile (fun c => c ≠ '/')).drop 1).reverse)
  else "."

/-- Go `path/filepath.Base` for the same class of paths: the part after the
final "/"; "." for the empty path. -/
def filepathBase (p : String) : String :=
  if p = "" then "." else String.mk ((p.data.reverse.takeWhile (fun c => c ≠ '/')).reverse)

/-- `getWorkbookRelsPath`: `<dir>/_rels/<basename>.rels` with a root-level
descriptor (`Dir` = ".") producing `_rels/<basename>.rels`, and otherwise a
leading "/" trimmed from the joined path. -/
def getWorkbookRelsPath (f : File) : String :=
  let wbPath := getWorkbookPath f
  let wbDir := filepathDir wbPath
  if wbDir = "." then "_rels/" ++ filepathBase wbPath ++ ".rels"
  else trimPrefix (filepathDir wbPath ++ "/_rels/" ++ filepathBase wbPath ++ ".rels") "/"

/-- Claim C1 is false as stated: a descriptor carrying hash material, hit by
`protect` with a non-empty password and an unsupported algorithm name, gets
the unsupported-algorithm error surfaced, yet its protection record is not
left as it was — it has already been replaced. -/
theorem C1_counterexample :
    (ProtectWorkbook
        ⟨some ⟨none, some ⟨true, true, "SHA-256", "salt0", "hash0", 7⟩, []⟩, none,
          DecodeOutcome.eof⟩
        (some ⟨"NoSuchAlgo", "pw", false, false⟩)).2
      = some GoErr.unsupportedHashAlgorithm
  ∧ (ProtectWorkbook
        ⟨some ⟨none, some ⟨true, true, "SHA-256", "salt0", "hash0", 7⟩, []⟩, none,
          DecodeOutcome.eof⟩
        (some ⟨"NoSuchAlgo", "pw", false, false⟩)).1.workBook
      = some ⟨none, some ⟨false, false, "", "", "", 0⟩, []⟩
  ∧ (some ⟨none, some ⟨false, false, "", "", "", 0⟩, []⟩ : Option XlsxWorkbook)
      ≠ some ⟨none, some ⟨true, true, "SHA-256", "salt0", "hash0", 7⟩, []⟩ := by
  decide

/-- Claim C1 (amended): for every loaded descriptor, `protect` with a
non-empty password and an algorithm name the hash collaborator rejects
surfaces the unsupported-algorithm error, but only after the protection
record has been replaced by a fresh record carrying the lock flags from
`opts` and no hash material. -/
theorem C1_protect_unsupported_algorithm (f : File) (wb : XlsxWorkbook)
    (o : WorkbookProtectionOptions)
    (hload : f.workBook = some wb)
    (hpw : o.password ≠ "")
    (halg : o.algorithmName ≠ "")
    (hbad : supportedHashAlgorithms.contains o.algorithmName = false) :
    ProtectWorkbook f (some o)
      = ({f with workBook := some {wb with
            workbookProtection := some ⟨o.lockStructure, o.lockWindows, "", "", "", 0⟩}},
         some GoErr.unsupportedHashAlgorithm) := by
  have hmem : o.algorithmName ∉ supportedHashAlgorithms := by simpa using hbad
  simp [ProtectWorkbook, workbookReader, hload, storeWorkBook, genISOPasswdHash, hpw, halg, hmem]

/-- Witness for the amended C1 at a concrete protected descriptor. -/
theorem C1_witness :
    (("pw" : String) ≠ "" ∧ ("NoSuchAlgo" : String) ≠ ""
      ∧ supportedHashAlgorithms.contains "NoSuchAlgo" = false)
  ∧ ProtectWorkbook
      ⟨some ⟨none, some ⟨true, true, "SHA-256", "salt0", "hash0", 7⟩, []⟩, none,
        DecodeOutcome.eof⟩
      (some ⟨"NoSuchAlgo", "pw", false, false⟩)
    = (⟨some ⟨none, some ⟨false, false, "", "", "", 0⟩, []⟩, none, DecodeOutcome.eof⟩,
       some GoErr.unsupportedHashAlgorithm) :=
  ⟨⟨by decide, by decide, by decide⟩,
   C1_protect_unsupported_algorithm
     ⟨some ⟨none, some ⟨true, true, "SHA-256", "salt0", "hash0", 7⟩, []⟩, none,
       DecodeOutcome.eof⟩
     ⟨none, some ⟨true, true, "SHA-256", "salt0", "hash0", 7⟩, []⟩
     ⟨"NoSuchAlgo", "pw", false, false⟩ rfl (by decide) (by decide) (by decide)⟩

/-- Claim C2 is false as stated: `protect` with an empty password succeeds
and sets the lock flags, but pre-existing hash material (here algorithm
SHA-512, salt "s0", hash "h0", spin count 9) is wiped, not left unchanged. -/
theorem C2_counterexample :
    (ProtectWorkbook
        ⟨some ⟨none, some ⟨false, false, "SHA-512", "s0", "h0", 9⟩, []⟩, none,
          DecodeOutcome.eof⟩
        (some ⟨"", "", true, false⟩)).2 = none
  ∧ (ProtectWorkbook
        ⟨some ⟨none, some ⟨false, false, "SHA-512", "s0", "h0", 9⟩, []⟩, none,
          DecodeOutcome.eof⟩
        (some ⟨"", "", true, false⟩)).1.workBook
      = some ⟨none, some ⟨true, false, "", "", "", 0⟩, []⟩
  ∧ (some ⟨none, some ⟨true, false, "", "", "", 0⟩, []⟩ : Option XlsxWorkbook)
      ≠ some ⟨none, some ⟨true, false, "SHA-512", "s0", "h0", 9⟩, []⟩ := by
  decide

/-- Claim C2 (amended): for every loaded descriptor, `protect` with an empty
password succeeds, sets the lock flags from `opts` and performs no hash
computation, but it does not preserve pre-existing hash material: the
protection record is replaced by a fresh record with empty algorithm name,
salt and hash and zero spin count. -/
theorem C2_protect_empty_password (f : File) (wb : XlsxWorkbook)
    (o : WorkbookProtectionOptions)
    (hload : f.workBook = some wb) (hpw : o.password = "") :
    ProtectWorkbook f (some o)
      = ({f with workBook := some {wb with
            workbookProtection := some ⟨o.lockStructure, o.lockWindows, "", "", "", 0⟩}},
         none) := by
  simp [ProtectWorkbook, workbookReader, hload, storeWorkBook, hpw]

/-- Witness for the amended C2 at a concrete descriptor with hash material. -/
theorem C2_witness :
    (WorkbookProtectionOptions.password ⟨"", "", true, false⟩ = "")
  ∧ ProtectWorkbook
      ⟨some ⟨none, some ⟨false, false, "SHA-512", "s0", "h0", 9⟩, []⟩, none,
        DecodeOutcome.eof⟩
      (some ⟨"", "", true, false⟩)
    = (⟨some ⟨none, some ⟨true, false, "", "", "", 0⟩, []⟩, none, DecodeOutcome.eof⟩, none) :=
  ⟨rfl, C2_protect_empty_password
    ⟨some ⟨none, some ⟨false, false, "SHA-512", "s0", "h0", 9⟩, []⟩, none, DecodeOutcome.eof⟩
    ⟨none, some ⟨false, false, "SHA-512", "s0", "h0", 9⟩, []⟩
    ⟨"", "", true, false⟩ rfl rfl⟩

/-- Claim C3 is false as stated: on a loaded descriptor with no properties
record, `SetWorkbookProps` with nil options returns success but creates the
properties record, so a later `GetWorkbookProps` observes populated default
fields where it observed all-nil fields before the call. -/
theorem C3_counterexample :
    (SetWorkbookProps ⟨some ⟨none, none, []⟩, none, DecodeOutcome.eof⟩ none).2 = none
  ∧ (GetWorkbookProps ⟨some ⟨none, none, []⟩, none, DecodeOutcome.eof⟩).2.1
      = ⟨none, none, none⟩
  ∧ (GetWorkbookProps
        (SetWorkbookProps ⟨some ⟨none, none, []⟩, none, DecodeOutcome.eof⟩ none).1).2.1
      = ⟨some false, some false, some ""⟩
  ∧ ((⟨some false, some false, some ""⟩ : WorkbookPropsOptions) ≠ ⟨none, none, none⟩) := by
  decide

/-- Claim C3 (amended): for every loaded descriptor, `SetWorkbookProps` with
nil options returns success and changes no stored property values, sheet
list or protection record, but it ensures the properties record exists: an
absent record is created with all-default fields (so a later
`GetWorkbookProps` that would have observed all-nil fields observes
populated defaults). -/
theorem C3_set_props_nil (f : File) (wb : XlsxWorkbook)
    (hload : f.workBook = some wb) :
    SetWorkbookProps f none
      = ({f with workBook := some {wb with
            workbookPr := some (wb.workbookPr.getD newXlsxWorkbookPr)}}, none) := by
  cases wb with
  | mk pr prot sheets =>
    cases pr <;>
      simp [SetWorkbookProps, workbookReader, hload, storeWorkBook, newXlsxWorkbookPr]

/-- Witness for the amended C3 at a concrete descriptor without a properties
record. -/
theorem C3_witness :
    ((⟨some ⟨none, none, []⟩, none, DecodeOutcome.eof⟩ : File).workBook
      = some ⟨none, none, []⟩)
  ∧ SetWorkbookProps ⟨some ⟨none, none, []⟩, none, DecodeOutcome.eof⟩ none
      = (⟨some ⟨some ⟨false, false, ""⟩, none, []⟩, none, DecodeOutcome.eof⟩, none) :=
  ⟨rfl, C3_set_props_nil ⟨some ⟨none, none, []⟩, none, DecodeOutcome.eof⟩ ⟨none, none, []⟩ rfl⟩

/-- Claim C4: the code as written contradicts the intended (and specified)
treatment of a wholly empty backing part.  At the failing input — a fresh
handle whose part decodes to "no more data" — the first `workbookReader`
call installs and returns the empty descriptor but propagates `io.EOF` as a
non-nil error (the source's `err != io.EOF` exemption returns exactly what
the fall-through returns, so it never takes effect), and a caller such as
`SetWorkbookProps` surfaces that error. -/
theorem C4_empty_part_eval :
    workbookReader ⟨none, none, DecodeOutcome.eof⟩
      = (⟨some emptyWorkbook, none, DecodeOutcome.eof⟩, emptyWorkbook, some GoErr.ioEOF)
  ∧ (SetWorkbookProps ⟨none, none, DecodeOutcome.eof⟩ none).2 = some GoErr.ioEOF
  ∧ workbookReader ⟨some emptyWorkbook, none, DecodeOutcome.eof⟩
      = (⟨some emptyWorkbook, none, DecodeOutcome.eof⟩, emptyWorkbook, none) := by
  decide

/-- Claim C5 is false as stated: a failing decode surfaces its error on the
first `workbookReader` call, but the partially decoded descriptor (here one
with a populated properties record) is cached, and the second call returns
it with a nil error — the failure is masked. -/
theorem C5_counterexample :
    (workbookReader ⟨none, none,
        DecodeOutcome.failure ⟨some ⟨true, false, "x"⟩, none, []⟩ "malformed"⟩).2.2
      = some (GoErr.decodeFail "malformed")
  ∧ (workbookReader ⟨none, none,
        DecodeOutcome.failure ⟨some ⟨true, false, "x"⟩, none, []⟩ "malformed"⟩).1.workBook
      = some ⟨some ⟨true, false, "x"⟩, none, []⟩
  ∧ (workbookReader
        (workbookReader ⟨none, none,
          DecodeOutcome.failure ⟨some ⟨true, false, "x"⟩, none, []⟩ "malformed"⟩).1).2.2
      = none := by
  decide

/-- Claim C5 (amended): when the backing part exists but cannot be parsed,
the first `workbookReader` call surfaces the decode error to the caller,
but partial state is installed: the partially decoded descriptor is cached
in the handle, and a subsequent call returns that cached descriptor with a
nil error, masking the failure. -/
theorem C5_decode_error_masked (f : File) (pwb : XlsxWorkbook) (msg : String)
    (hnew : f.workBook = none)
    (hdec : f.workbookDecode = DecodeOutcome.failure pwb msg) :
    workbookReader f = ({f with workBook := some pwb}, pwb, some (GoErr.decodeFail msg))
  ∧ workbookReader {f with workBook := some pwb}
      = ({f with workBook := some pwb}, pwb, none) := by
  constructor
  · simp [workbookReader, hnew, hdec, storeWorkBook]
  · simp [workbookReader]

/-- Witness for the amended C5 at a concrete malformed part. -/
theorem C5_witness :
    ((⟨none, none, DecodeOutcome.failure ⟨some ⟨true, false, "x"⟩, none, []⟩ "malformed"⟩
        : File).workBook = none)
  ∧ workbookReader
      ⟨none, none, DecodeOutcome.failure ⟨some ⟨true, false, "x"⟩, none, []⟩ "malformed"⟩
    = (⟨some ⟨some ⟨true, false, "x"⟩, none, []⟩, none,
        DecodeOutcome.failure ⟨some ⟨true, false, "x"⟩, none, []⟩ "malformed"⟩,
       ⟨some ⟨true, false, "x"⟩, none, []⟩, some (GoErr.decodeFail "malformed"))
  ∧ workbookReader
      ⟨some ⟨some ⟨true, false, "x"⟩, none, []⟩, none,
        DecodeOutcome.failure ⟨some ⟨true, false, "x"⟩, none, []⟩ "malformed"⟩
    = (⟨some ⟨some ⟨true, false, "x"⟩, none, []⟩, none,
        DecodeOutcome.failure ⟨some ⟨true, false, "x"⟩, none, []⟩ "malformed"⟩,
       ⟨some ⟨true, false, "x"⟩, none, []⟩, none) :=
  ⟨rfl,
   (C5_decode_error_masked
     ⟨none, none, DecodeOutcome.failure ⟨some ⟨true, false, "x"⟩, none, []⟩ "malformed"⟩
     ⟨some ⟨true, false, "x"⟩, none, []⟩ "malformed" rfl rfl).1,
   (C5_decode_error_masked
     ⟨none, none, DecodeOutcome.failure ⟨some ⟨true, false, "x"⟩, none, []⟩ "malformed"⟩
     ⟨some ⟨true, false, "x"⟩, none, []⟩ "malformed" rfl rfl).2⟩

/-- The idealized hash derivation is injective in the password for fixed
algorithm, salt and spin count. -/
theorem deriveHash_password_inj (a s : String) (n : Int) (p q : String)
    (h : deriveHash p a s n = deriveHash q a s n) : p = q := by
  have hd := congrArg String.data h
  simp only [deriveHash, String.data_append, List.append_assoc,
    List.append_cancel_left_eq] at hd
  exact String.ext hd

/-- Claim C6: for every loaded descriptor, protecting with a non-empty
password `p` (and an accepted algorithm, SHA-512 when unspecified) succeeds
and stores a protection record with hash material; unprotecting with `p`
then succeeds and clears the record, while unprotecting with any `q ≠ p`
fails with the wrong-password error and leaves the handle — in particular
the stored record — exactly intact. -/
theorem C6_protect_unprotect_password (f : File) (wb : XlsxWorkbook)
    (o : WorkbookProtectionOptions) (p : String)
    (hload : f.workBook = some wb) (hp : o.password = p) (hpne : p ≠ "")
    (hsupp : (if o.algorithmName = "" then "SHA-512" else o.algorithmName)
        ∈ supportedHashAlgorithms) :
    (ProtectWorkbook f (some o)).2 = none
  ∧ ((ProtectWorkbook f (some o)).1.workBook.bind XlsxWorkbook.workbookProtection).isSome
      = true
  ∧ UnprotectWorkbook (ProtectWorkbook f (some o)).1 [p]
      = ({f with workBook := some {wb with workbookProtection := none}}, none)
  ∧ ∀ q : String, q ≠ p →
      UnprotectWorkbook (ProtectWorkbook f (some o)).1 [q]
        = ((ProtectWorkbook f (some o)).1, some GoErr.errUnprotectWorkbookPassword) := by
  have halgne : (if o.algorithmName = "" then "SHA-512" else o.algorithmName) ≠ "" := by
    intro hE
    rw [hE] at hsupp
    exact absurd hsupp (by decide)
  have hfs : freshSaltValue ≠ "" := by decide
  have hprot : ProtectWorkbook f (some o)
      = ({f with workBook := some {wb with
            workbookProtection := some
              ⟨o.lockStructure, o.lockWindows,
               if o.algorithmName = "" then "SHA-512" else o.algorithmName,
               freshSaltValue,
               deriveHash p (if o.algorithmName = "" then "SHA-512" else o.algorithmName)
                 freshSaltValue workbookProtectionSpinCount,
               workbookProtectionSpinCount⟩}}, none) := by
    simp [ProtectWorkbook, workbookReader, hload, storeWorkBook, genISOPasswdHash, hp, hpne,
      hsupp]
  refine ⟨by rw [hprot], by rw [hprot]; rfl, ?_, ?_⟩
  · rw [hprot]
    simp [UnprotectWorkbook, workbookReader, storeWorkBook, genISOPasswdHash, hsupp, halgne,
      hfs]
  · intro q hq
    have hne : deriveHash p (if o.algorithmName = "" then "SHA-512" else o.algorithmName)
        freshSaltValue workbookProtectionSpinCount
        ≠ deriveHash q (if o.algorithmName = "" then "SHA-512" else o.algorithmName)
          freshSaltValue workbookProtectionSpinCount := by
      intro hEq
      exact hq (deriveHash_password_inj _ _ _ _ _ hEq).symm
    rw [hprot]
    simp [UnprotectWorkbook, workbookReader, storeWorkBook, genISOPasswdHash, hsupp, halgne,
      hfs, hne]

/-- Witness for C6: protect an unprotected descriptor with password "pw"
(default algorithm), then unprotect with "pw" (succeeds, record cleared)
and with "wrong" (fails with the wrong-password error, handle intact). -/
theorem C6_witness :
    (("pw" : String) ≠ ""
      ∧ (if ("" : String) = "" then "SHA-512" else "") ∈ supportedHashAlgorithms)
  ∧ (ProtectWorkbook ⟨some ⟨none, none, []⟩, none, DecodeOutcome.eof⟩
      (some ⟨"", "pw", true, false⟩)).2 = none
  ∧ UnprotectWorkbook
      (ProtectWorkbook ⟨some ⟨none, none, []⟩, none, DecodeOutcome.eof⟩
        (some ⟨"", "pw", true, false⟩)).1 ["pw"]
      = (⟨some ⟨none, none, []⟩, none, DecodeOutcome.eof⟩, none)
  ∧ UnprotectWorkbook
      (ProtectWorkbook ⟨some ⟨none, none, []⟩, none, DecodeOutcome.eof⟩
        (some ⟨"", "pw", true, false⟩)).1 ["wrong"]
      = ((ProtectWorkbook ⟨some ⟨none, none, []⟩, none, DecodeOutcome.eof⟩
          (some ⟨"", "pw", true, false⟩)).1,
         some GoErr.errUnprotectWorkbookPassword) :=
  ⟨⟨by decide, by decide⟩,
   (C6_protect_unprotect_password ⟨some ⟨none, none, []⟩, none, DecodeOutcome.eof⟩
     ⟨none, none, []⟩ ⟨"", "pw", true, false⟩ "pw" rfl rfl (by decide) (by decide)).1,
   (C6_protect_unprotect_password ⟨some ⟨none, none, []⟩, none, DecodeOutcome.eof⟩
     ⟨none, none, []⟩ ⟨"", "pw", true, false⟩ "pw" rfl rfl (by decide) (by decide)).2.2.1,
   (C6_protect_unprotect_password ⟨some ⟨none, none, []⟩, none, DecodeOutcome.eof⟩
     ⟨none, none, []⟩ ⟨"", "pw", true, false⟩ "pw" rfl rfl (by decide) (by decide)).2.2.2
     "wrong" (by decide)⟩

/-- Claim C7: for every loaded descriptor with no protection record,
`UnprotectWorkbook` with a supplied password fails with
`ErrUnprotectWorkbook` and returns the handle exactly unchanged. -/
theorem C7_unprotect_not_protected (f : File) (wb : XlsxWorkbook) (pw : String)
    (hload : f.workBook = some wb)
    (hnoprot : wb.workbookProtection = none) :
    UnprotectWorkbook f [pw] = (f, some GoErr.errUnprotectWorkbook) := by
  simp [UnprotectWorkbook, workbookReader, hload, hnoprot]

/-- Witness for C7 at a concrete unprotected descriptor. -/
theorem C7_witness :
    ((⟨some ⟨none, none, []⟩, none, DecodeOutcome.eof⟩ : File).workBook
      = some ⟨none, none, []⟩)
  ∧ UnprotectWorkbook ⟨some ⟨none, none, []⟩, none, DecodeOutcome.eof⟩ ["pw"]
      = (⟨some ⟨none, none, []⟩, none, DecodeOutcome.eof⟩,
         some GoErr.errUnprotectWorkbook) :=
  ⟨rfl, C7_unprotect_not_protected ⟨some ⟨none, none, []⟩, none, DecodeOutcome.eof⟩
    ⟨none, none, []⟩ "pw" rfl rfl⟩

/-- Claim C8: for every loaded descriptor — protected with or without hash
material, or unprotected — `UnprotectWorkbook` with no password argument
succeeds, performs no verification, and leaves the descriptor with no
protection record while every other part of the handle is unchanged. -/
theorem C8_unprotect_no_password (f : File) (wb : XlsxWorkbook)
    (hload : f.workBook = some wb) :
    UnprotectWorkbook f []
      = ({f with workBook := some {wb with workbookProtection := none}}, none) := by
  simp [UnprotectWorkbook, workbookReader, hload, storeWorkBook]

/-- Witness for C8 at a concrete hash-protected descriptor. -/
theorem C8_witness :
    ((⟨some ⟨none, some ⟨true, true, "SHA-512", "s0", "h0", 9⟩, []⟩, none,
        DecodeOutcome.eof⟩ : File).workBook
      = some ⟨none, some ⟨true, true, "SHA-512", "s0", "h0", 9⟩, []⟩)
  ∧ UnprotectWorkbook
      ⟨some ⟨none, some ⟨true, true, "SHA-512", "s0", "h0", 9⟩, []⟩, none,
        DecodeOutcome.eof⟩ []
      = (⟨some ⟨none, none, []⟩, none, DecodeOutcome.eof⟩, none) :=
  ⟨rfl, C8_unprotect_no_password
    ⟨some ⟨none, some ⟨true, true, "SHA-512", "s0", "h0", 9⟩, []⟩, none, DecodeOutcome.eof⟩
    ⟨none, some ⟨true, true, "SHA-512", "s0", "h0", 9⟩, []⟩ rfl⟩

/-- The relationship scan yields "" when nothing matches. -/
theorem findOfficeDocTarget_eq_empty (rels : List Relationship)
    (h : ∀ rel ∈ rels, rel.relType ≠ SourceRelationshipOfficeDocument) :
    findOfficeDocTarget rels = "" := by
  induction rels with
  | nil => rfl
  | cons rel rest ih =>
    have h1 := h rel (List.mem_cons_self rel rest)
    simp only [findOfficeDocTarget, if_neg h1]
    exact ih fun r hr => h r (List.mem_cons_of_mem _ hr)

/-- The relationship scan skips every non-matching entry before the first
office-document relationship and returns that entry's target with a leading
"/" trimmed. -/
theorem findOfficeDocTarget_first_match (pre rest : List Relationship) (rel : Relationship)
    (hpre : ∀ r ∈ pre, r.relType ≠ SourceRelationshipOfficeDocument)
    (hrel : rel.relType = SourceRelationshipOfficeDocument) :
    findOfficeDocTarget (pre ++ rel :: rest) = trimPrefix rel.target "/" := by
  induction pre with
  | nil => simp [findOfficeDocTarget, hrel]
  | cons r rs ih =>
    have h1 := hpre r (List.mem_cons_self r rs)
    simp only [List.cons_append, findOfficeDocTarget, if_neg h1]
    exact ih fun x hx => hpre x (List.mem_cons_of_mem _ hx)

/-- Claim C9: `getWorkbookPath` returns "" whenever the relationship table
is absent or holds no office-document relationship, and otherwise — for any
table split as non-matching entries, then the first office-document
relationship, then anything — returns that relationship's target with a
leading "/" trimmed; `getWorkbookRelsPath` maps descriptor path
"xl/workbook.xml" to "xl/_rels/workbook.xml.rels" and the root-level
"workbook.xml" to "_rels/workbook.xml.rels". -/
theorem C9_path_resolution (f : File)
    (hnone : ∀ rels, f.rels = some rels →
      ∀ rel ∈ rels, rel.relType ≠ SourceRelationshipOfficeDocument) :
    getWorkbookPath f = ""
  ∧ (∀ g : File, ∀ pre rest : List Relationship, ∀ rel : Relationship,
      g.rels = some (pre ++ rel :: rest) →
      (∀ r ∈ pre, r.relType ≠ SourceRelationshipOfficeDocument) →
      rel.relType = SourceRelationshipOfficeDocument →
      getWorkbookPath g = trimPrefix rel.target "/")
  ∧ getWorkbookRelsPath
      ⟨none, some [⟨SourceRelationshipOfficeDocument, "xl/workbook.xml"⟩], DecodeOutcome.eof⟩
      = "xl/_rels/workbook.xml.rels"
  ∧ getWorkbookRelsPath
      ⟨none, some [⟨SourceRelationshipOfficeDocument, "workbook.xml"⟩], DecodeOutcome.eof⟩
      = "_rels/workbook.xml.rels" := by
  refine ⟨?_, ?_, by decide, by decide⟩
  · match hr : f.rels with
    | none => simp [getWorkbookPath, hr]
    | some rels =>
      simp only [getWorkbookPath, hr]
      exact findOfficeDocTarget_eq_empty rels (hnone rels hr)
  · intro g pre rest rel hg hpre hrel
    simp only [getWorkbookPath, hg]
    exact findOfficeDocTarget_first_match pre rest rel hpre hrel

/-- Witness for C9: a handle with no relationship part resolves to ""; a
table whose office-document relationship sits behind a non-matching entry
resolves to its target with the leading "/" stripped; the two concrete
rels-path cases. -/
theorem C9_witness :
    getWorkbookPath ⟨none, none, DecodeOutcome.eof⟩ = ""
  ∧ getWorkbookPath
      ⟨none, some [⟨"http://example.com/other", "docProps/core.xml"⟩,
        ⟨SourceRelationshipOfficeDocument, "/xl/workbook.xml"⟩], DecodeOutcome.eof⟩
      = "xl/workbook.xml"
  ∧ getWorkbookRelsPath
      ⟨none, some [⟨SourceRelationshipOfficeDocument, "xl/workbook.xml"⟩], DecodeOutcome.eof⟩
      = "xl/_rels/workbook.xml.rels"
  ∧ getWorkbookRelsPath
      ⟨none, some [⟨SourceRelationshipOfficeDocument, "workbook.xml"⟩], DecodeOutcome.eof⟩
      = "_rels/workbook.xml.rels" :=
  ⟨(C9_path_resolution ⟨none, none, DecodeOutcome.eof⟩ (by intro rels h; cases h)).1,
   by
    have h2 := (C9_path_resolution ⟨none, none, DecodeOutcome.eof⟩
        (by intro rels h; cases h)).2.1
      ⟨none, some [⟨"http://example.com/other", "docProps/core.xml"⟩,
        ⟨SourceRelationshipOfficeDocument, "/xl/workbook.xml"⟩], DecodeOutcome.eof⟩
      [⟨"http://example.com/other", "docProps/core.xml"⟩] []
      ⟨SourceRelationshipOfficeDocument, "/xl/workbook.xml"⟩ rfl (by decide) rfl
    simpa using h2,
   (C9_path_resolution ⟨none, none, DecodeOutcome.eof⟩ (by intro rels h; cases h)).2.2.1,
   (C9_path_resolution ⟨none, none, DecodeOutcome.eof⟩ (by intro rels h; cases h)).2.2.2⟩

/-- Claim C10: `setWorkbook` appends exactly one sheet entry — name, sheet
id, relationship id token "rId" followed by the decimal rendering of `rid`
— at the end of the sheet sequence, leaving all prior entries and their
order, and every other part of the handle, undisturbed; its Go return type
is empty, and even when the descriptor load failed (decode failure on a
fresh handle) the error is silently ignored and the append still happens on
the partially decoded descriptor. -/
theorem C10_register_sheet (f : File) (wb : XlsxWorkbook) (name : String)
    (sheetID rid : Int)
    (hload : f.workBook = some wb) :
    setWorkbook f name sheetID rid
      = {f with workBook := some {wb with
          sheets := wb.sheets ++ [⟨name, sheetID, "rId" ++ toString rid⟩]}}
  ∧ (∀ g : File, ∀ pwb : XlsxWorkbook, ∀ msg : String,
      g.workBook = none → g.workbookDecode = DecodeOutcome.failure pwb msg →
      setWorkbook g name sheetID rid
        = {g with workBook := some {pwb with
            sheets := pwb.sheets ++ [⟨name, sheetID, "rId" ++ toString rid⟩]}}) := by
  constructor
  · simp [setWorkbook, workbookReader, hload, storeWorkBook]
  · intro g pwb msg hg hd
    simp [setWorkbook, workbookReader, hg, hd, storeWorkBook]

/-- Witness for C10: registering ("Sheet2", 2, 3) appends relationship id
"rId3" after the existing entry. -/
theorem C10_witness :
    ((⟨some ⟨none, none, [⟨"Sheet1", 1, "rId1"⟩]⟩, none, DecodeOutcome.eof⟩ : File).workBook
      = some ⟨none, none, [⟨"Sheet1", 1, "rId1"⟩]⟩)
  ∧ setWorkbook ⟨some ⟨none, none, [⟨"Sheet1", 1, "rId1"⟩]⟩, none, DecodeOutcome.eof⟩
      "Sheet2" 2 3
      = ⟨some ⟨none, none, [⟨"Sheet1", 1, "rId1"⟩, ⟨"Sheet2", 2, "rId3"⟩]⟩, none,
         DecodeOutcome.eof⟩ :=
  ⟨rfl, (C10_register_sheet
    ⟨some ⟨none, none, [⟨"Sheet1", 1, "rId1"⟩]⟩, none, DecodeOutcome.eof⟩
    ⟨none, none, [⟨"Sheet1", 1, "rId1"⟩]⟩ "Sheet2" 2 3 rfl).1⟩
